import Mathlib

/-!
Verification of the guest-side ownership primitives of a C++ binding
helper header (`wit-guest.h`): owned buffers (`wit::string`,
`wit::vector<T>`), exported resources (`wit::ResourceExportBase<R>`) and
imported resources (`wit::ResourceImportBase`).

Shallow embedding conventions:
- A raw pointer is modelled as `Option Addr` with `Addr := Nat`; the C
  null pointer is `Option.none`, so the `if (data_)` guards of the source
  become matches on the option.
- Linear memory is a block map `Mem : Addr → List UInt8` giving the byte
  block stored at each allocation base address.
- Calls that leave the guest (the boundary deallocator `free`, the host
  registry call `ResourceDrop`) are recorded as an explicit `Effect`
  trace returned by the embedded operation; an operation whose body in
  the source performs no such call returns an empty trace.
- The global allocator `malloc` of the source is passed explicitly as a
  function `Nat → Option Addr` (`none` models a NULL return, i.e. the
  allocator cannot satisfy the request).
- The non-symmetric handle representation of the source is modelled:
  `handle_t = int32_t` becomes `Int` (no arithmetic is ever performed on
  handles, only assignment and comparison, so overflow cannot occur) and
  the sentinel `invalid` is `-1`.
-/

namespace wit

/-- Base address of an allocation; the C null pointer is represented by
`Option.none`, never by an `Addr`. -/
abbrev Addr := Nat

/-- Linear memory as a block map: the byte block stored at each
allocation base address. -/
abbrev Mem := Addr → List UInt8

/-- Observable calls an embedded operation makes across the boundary:
`free a` is a call to the boundary deallocator on the block at `a`;
`resourceDrop h` is the host registry call `ResourceDrop(h)`. -/
inductive Effect where
  | free (a : Addr)
  | resourceDrop (h : Int)
deriving DecidableEq, Repr

/-- The effect of `memcpy(dst, src, src.length)` on the block map. A
NULL destination (`none`) is undefined behaviour in C; the model leaves
memory unchanged in that case. -/
def memcpy (mem : Mem) (dst : Option Addr) (src : List UInt8) : Mem :=
  match dst with
  | some a => fun x => if x = a then src else mem x
  | none => mem

/-- `wit::string`: a byte buffer in linear memory, freed unconditionally
using the boundary `free`. Fields mirror the source: `data_` (a possibly
null pointer) and `length`. -/
structure string where
  data_ : Option Addr
  length : Nat
deriving DecidableEq, Repr

namespace string

/-- `size()` accessor: `return length;`. -/
def size (s : string) : Nat := s.length

/-- Destructor `~string()`: `if (data_) { free(const_cast<uint8_t*>(data_)); }`.
Returns the trace of boundary calls the destructor body makes. -/
def dtor (s : string) : List Effect :=
  match s.data_ with
  | some a => [Effect.free a]
  | none => []

/-- `leak()`: `data_ = nullptr;` — drops the deallocation obligation
without freeing. -/
def leak (s : string) : string := { s with data_ := none }

/-- Move constructor `string(string&& b) : data_(b.data_), length(b.length)
{ b.data_ = nullptr; }`. Returns (constructed object, source after the
move); the body performs no boundary call. -/
def moveCtor (b : string) : string × string :=
  (⟨b.data_, b.length⟩, { b with data_ := none })

/-- Move assignment `operator=(string&& b)`: frees the destination's own
block if non-null, then takes `b`'s pointer and length and nulls `b`'s
pointer. Returns (new destination, source after the move, trace). -/
def moveAssign (dst b : string) : string × string × List Effect :=
  (⟨b.data_, b.length⟩, { b with data_ := none },
    match dst.data_ with
    | some a => [Effect.free a]
    | none => [])

/-- `get_view()`: `std::string_view((const char*)data_, length)` — the
`length` bytes at `data_`. A view over the null pointer reads nothing. -/
def get_view (s : string) (mem : Mem) : List UInt8 :=
  match s.data_ with
  | some a => (mem a).take s.length
  | none => []

/-- `from_view(v)`: `addr = malloc(v.size()); memcpy(addr, v.data(), v.size());
return string(addr, v.size());`. The allocator is passed explicitly; the
result of `malloc` is stored as the new buffer's pointer with no check. -/
def from_view (malloc : Nat → Option Addr) (v : List UInt8) (mem : Mem) :
    string × Mem :=
  let addr := malloc v.length
  (⟨addr, v.length⟩, memcpy mem addr v)

end string

/-- `wit::vector<T>`: an element buffer in linear memory, freed
unconditionally using the boundary `free`. The element type is a phantom
parameter: the embedded operations below never inspect elements, only
the pointer and the length, exactly as the source's destructor, move
operations and `leak` do. -/
structure vector (T : Type) where
  data_ : Option Addr
  length : Nat
deriving DecidableEq, Repr

namespace vector

/-- `size()` accessor: `return length;`. -/
def size {T : Type} (v : vector T) : Nat := v.length

/-- Destructor `~vector()`: `if (data_) { free(data_); }`. -/
def dtor {T : Type} (v : vector T) : List Effect :=
  match v.data_ with
  | some a => [Effect.free a]
  | none => []

/-- `leak()`: `data_ = nullptr;`. -/
def leak {T : Type} (v : vector T) : vector T := { v with data_ := none }

/-- Move constructor `vector(vector&& b) : data_(b.data_), length(b.length)
{ b.data_ = nullptr; }`. -/
def moveCtor {T : Type} (b : vector T) : vector T × vector T :=
  (⟨b.data_, b.length⟩, { b with data_ := none })

/-- Move assignment `operator=(vector&& b)`: frees the destination's own
block if non-null (the source spells the free with a `const_cast` to
`uint8_t*`, which only instantiates at `T = uint8_t`; the freed pointer
is `data_` either way), then takes `b`'s pointer and length and nulls
`b`'s pointer. -/
def moveAssign {T : Type} (dst b : vector T) :
    vector T × vector T × List Effect :=
  (⟨b.data_, b.length⟩, { b with data_ := none },
    match dst.data_ with
    | some a => [Effect.free a]
    | none => [])

end vector

/-- `wit::ResourceExportBase<R>`: base state of a resource defined on the
guest side and registered with the host. Only the handle field is
declared in the source; the derived resource `R`'s own data is opaque
here. Non-symmetric handle representation: `handle_t = int32_t`,
sentinel `invalid = -1`. -/
structure ResourceExportBase where
  handle : Int
deriving DecidableEq, Repr

namespace ResourceExportBase

/-- The sentinel `invalid = -1` of the non-symmetric branch. -/
def invalid : Int := -1

/-- `get_handle()`: `return handle;`. -/
def get_handle (st : ResourceExportBase) : Int := st.handle

/-- `into_handle()`: `result = handle; handle = invalid; return result;`.
Returns (extracted handle, state after the call); the body performs no
boundary call. -/
def into_handle (st : ResourceExportBase) : Int × ResourceExportBase :=
  (st.handle, ⟨invalid⟩)

/-- The `Deregister` deleter's `operator()(R* ptr)`:
`if (ptr->handle >= 0) { R::ResourceDrop(ptr->handle); }` — no free and
no delete, since the deleter replaces `unique_ptr`'s default delete.
Returns the trace of boundary calls. -/
def deregister (st : ResourceExportBase) : List Effect :=
  if 0 ≤ st.handle then [Effect.resourceDrop st.handle] else []

/-- Destructor `~ResourceExportBase() {}`: empty body, run when the host
invokes the guest's destroy callback; it makes no boundary call. -/
def dtor (_ : ResourceExportBase) : List Effect := []

/-- Modelled from the spec: the host registry call `R::ResourceNew`
(`registryCreate(objectRef) -> handle`) is host-provided code absent
from this repository. Per the spec's registry contract, it either
assigns a handle distinct from the sentinel (a nonnegative value in the
integer addressing mode) or the registration fails, which is fatal: the
whole construction fails rather than producing a half-initialized
object. An outcome is `some h` (a handle was assigned) or `none` (fatal
registration failure). -/
def registryOutcomeOk (outcome : Option Int) : Prop :=
  ∀ h : Int, outcome = some h → 0 ≤ h

/-- Constructor `ResourceExportBase() : handle(R::ResourceNew((R*)this)) {}`,
parameterized by the registry call's outcome: on `some h` the object is
built with `handle = h`; on fatal registration failure no object
results. -/
def construct (outcome : Option Int) : Option ResourceExportBase :=
  match outcome with
  | some h => some ⟨h⟩
  | none => none

end ResourceExportBase

/-- `wit::ResourceImportBase`: an opaque handle to a host-owned object.
Non-symmetric handle representation: `handle_t = int32_t`, sentinel
`invalid = -1`. -/
structure ResourceImportBase where
  handle : Int
deriving DecidableEq, Repr

namespace ResourceImportBase

/-- The sentinel `invalid = -1` of the non-symmetric branch. -/
def invalid : Int := -1

/-- `get_handle()`: `return handle;`. -/
def get_handle (st : ResourceImportBase) : Int := st.handle

/-- `set_handle(h)`: `handle = h;` — unconditional overwrite; the body
performs no assertion and no boundary call, so the trace is empty. -/
def set_handle (_st : ResourceImportBase) (h : Int) :
    ResourceImportBase × List Effect :=
  (⟨h⟩, [])

/-- `into_handle()`: `h = handle; handle = invalid; return h;`. -/
def into_handle (st : ResourceImportBase) : Int × ResourceImportBase :=
  (st.handle, ⟨invalid⟩)

/-- Move constructor `ResourceImportBase(ResourceImportBase&& r) :
handle(r.handle) { r.handle = invalid; }`. Returns (constructed object,
source after the move). -/
def moveCtor (r : ResourceImportBase) :
    ResourceImportBase × ResourceImportBase :=
  (⟨r.handle⟩, ⟨invalid⟩)

/-- Move assignment `operator=(ResourceImportBase&& r)`:
`assert(handle == invalid); handle = r.handle; r.handle = invalid;`.
`none` models the assertion firing (fail-fast) when the destination
already holds a non-sentinel handle; otherwise returns
(new destination, source after the move). -/
def moveAssign (dst r : ResourceImportBase) :
    Option (ResourceImportBase × ResourceImportBase) :=
  if dst.handle = invalid then some (⟨r.handle⟩, ⟨invalid⟩) else none

end ResourceImportBase

end wit

/-- C1: for every exported resource, the scope-exit release path (the
`Deregister` deleter invoked by the `Owned` unique_ptr) makes no `free`
call, and on a valid (nonnegative) stored handle its only boundary call
is `ResourceDrop` on that handle; the `~ResourceExportBase` destructor
(the path run inside the host's destroy callback) makes no deregistration
call to the host. -/
theorem c1_scope_exit_drops_never_frees (st : wit.ResourceExportBase) :
    (∀ a : wit.Addr, wit.Effect.free a ∉ st.deregister) ∧
    (0 ≤ st.handle → st.deregister = [wit.Effect.resourceDrop st.handle]) ∧
    st.dtor = [] := by
  refine ⟨?_, ?_, rfl⟩
  · intro a hmem
    unfold wit.ResourceExportBase.deregister at hmem
    split at hmem <;> simp_all
  · intro h
    simp [wit.ResourceExportBase.deregister, h]

/-- Witness for C1 at the concrete handle 3. -/
theorem c1_scope_exit_drops_never_frees_witness :
    wit.Effect.free 0 ∉ (⟨3⟩ : wit.ResourceExportBase).deregister ∧
    (⟨3⟩ : wit.ResourceExportBase).deregister = [wit.Effect.resourceDrop 3] ∧
    (⟨3⟩ : wit.ResourceExportBase).dtor = [] :=
  ⟨(c1_scope_exit_drops_never_frees ⟨3⟩).1 0,
   (c1_scope_exit_drops_never_frees ⟨3⟩).2.1 (by decide),
   (c1_scope_exit_drops_never_frees ⟨3⟩).2.2⟩

/-- C2: for every exported resource, `into_handle()` returns the stored
handle and sets the stored handle to the sentinel; afterwards the
deleter (run on destruction of the owning wrapper) makes no boundary
call at all (drop on an already-sentinel handle is a guarded no-op), and
a second `into_handle()` returns the sentinel and still leaves a state
on which the deleter makes no boundary call. -/
theorem c2_into_handle_consumes (st : wit.ResourceExportBase) :
    st.into_handle.1 = st.handle ∧
    st.into_handle.2.handle = wit.ResourceExportBase.invalid ∧
    st.into_handle.2.deregister = [] ∧
    st.into_handle.2.into_handle.1 = wit.ResourceExportBase.invalid ∧
    st.into_handle.2.into_handle.2.deregister = [] := by
  refine ⟨rfl, rfl, ?_, rfl, ?_⟩ <;>
    simp [wit.ResourceExportBase.into_handle,
      wit.ResourceExportBase.deregister, wit.ResourceExportBase.invalid]

/-- C3 counterexample: with an allocator that cannot satisfy the
request, `string::from_view` does not report any error — it returns a
`string` whose data pointer is null and whose length is the requested
length (here 2), a silently invalid buffer: the source stores the result
of `malloc` unchecked. -/
theorem c3_from_view_alloc_failure_counterexample :
    (wit.string.from_view (fun _ => none) [104, 105] (fun _ => [])).1 =
      ⟨none, 2⟩ := rfl

/-- C3 amended: when the boundary allocator cannot satisfy the request,
`string::from_view` reports no allocation error; it returns a buffer
whose data pointer is null and whose length is the source view's length,
and leaves memory unchanged (the unconditional `memcpy` then targets the
null pointer, which is undefined behaviour in C). -/
theorem c3_from_view_alloc_failure (malloc : Nat → Option wit.Addr)
    (v : List UInt8) (mem : wit.Mem) (hfail : malloc v.length = none) :
    wit.string.from_view malloc v mem = (⟨none, v.length⟩, mem) := by
  simp [wit.string.from_view, wit.memcpy, hfail]

/-- Witness for the amended C3 at a concrete failing allocator. -/
theorem c3_from_view_alloc_failure_witness :
    wit.string.from_view (fun _ => none) [104, 105] (fun _ => []) =
      (⟨none, 2⟩, fun _ => []) :=
  c3_from_view_alloc_failure (fun _ => none) [104, 105] (fun _ => []) rfl

/-- C4: when the allocator satisfies the request, the buffer built by
`string::from_view(v)` views back exactly the bytes of `v` and its size
equals `v`'s length (round-trip fidelity of copy then view). -/
theorem c4_from_view_roundtrip (malloc : Nat → Option wit.Addr)
    (v : List UInt8) (mem : wit.Mem) (a : wit.Addr)
    (hok : malloc v.length = some a) :
    (wit.string.from_view malloc v mem).1.get_view
      (wit.string.from_view malloc v mem).2 = v ∧
    (wit.string.from_view malloc v mem).1.size = v.length := by
  unfold wit.string.from_view wit.string.get_view wit.string.size wit.memcpy
  simp [hok]

/-- Witness for C4 copying the two bytes `hi`. -/
theorem c4_from_view_roundtrip_witness :
    (wit.string.from_view (fun _ => some 1) [104, 105] (fun _ => [])).1.get_view
      (wit.string.from_view (fun _ => some 1) [104, 105] (fun _ => [])).2 =
      [104, 105] ∧
    (wit.string.from_view (fun _ => some 1) [104, 105] (fun _ => [])).1.size =
      2 :=
  c4_from_view_roundtrip (fun _ => some 1) [104, 105] (fun _ => []) 1 rfl

/-- C5: for every owning buffer (string or vector), `leak()` nulls the
data pointer, so the destructor run afterwards takes its empty branch
and performs no `free`. -/
theorem c5_leak_then_dtor_no_free {T : Type} (s : wit.string)
    (w : wit.vector T) :
    (s.leak.data_ = none ∧ s.leak.dtor = []) ∧
    (w.leak.data_ = none ∧ w.leak.dtor = []) :=
  ⟨⟨rfl, rfl⟩, ⟨rfl, rfl⟩⟩

/-- C6: for string and vector alike, move construction transfers the
data pointer and length and nulls the source's pointer, and move
assignment into a destination that owns a block frees that old block and
then transfers, nulling the source's pointer. -/
theorem c6_move_transfers_and_frees {T : Type} (dst src : wit.string)
    (dv sv : wit.vector T) (a b : wit.Addr) (hd : dst.data_ = some a)
    (hv : dv.data_ = some b) :
    src.moveCtor = (⟨src.data_, src.length⟩, ⟨none, src.length⟩) ∧
    dst.moveAssign src =
      (⟨src.data_, src.length⟩, ⟨none, src.length⟩, [wit.Effect.free a]) ∧
    sv.moveCtor = (⟨sv.data_, sv.length⟩, ⟨none, sv.length⟩) ∧
    dv.moveAssign sv =
      (⟨sv.data_, sv.length⟩, ⟨none, sv.length⟩, [wit.Effect.free b]) := by
  refine ⟨rfl, ?_, rfl, ?_⟩ <;>
    simp [wit.string.moveAssign, wit.vector.moveAssign, hd, hv]

/-- Witness for C6 at concrete buffers. -/
theorem c6_move_transfers_and_frees_witness :
    (⟨some 9, 2⟩ : wit.string).moveCtor = (⟨some 9, 2⟩, ⟨none, 2⟩) ∧
    (⟨some 4, 3⟩ : wit.string).moveAssign ⟨some 9, 2⟩ =
      (⟨some 9, 2⟩, ⟨none, 2⟩, [wit.Effect.free 4]) ∧
    (⟨some 6, 7⟩ : wit.vector UInt8).moveCtor = (⟨some 6, 7⟩, ⟨none, 7⟩) ∧
    (⟨some 5, 1⟩ : wit.vector UInt8).moveAssign ⟨some 6, 7⟩ =
      (⟨some 6, 7⟩, ⟨none, 7⟩, [wit.Effect.free 5]) :=
  c6_move_transfers_and_frees (T := UInt8) ⟨some 4, 3⟩ ⟨some 9, 2⟩
    ⟨some 5, 1⟩ ⟨some 6, 7⟩ 4 5 rfl rfl

/-- C7: under the spec's registry contract (an assigned handle is valid,
i.e. nonnegative; failure to assign is fatal), construction of an
exported resource either fails as a whole or yields an object whose
`get_handle()` is not the sentinel. -/
theorem c7_construct_valid_or_fails (outcome : Option Int)
    (hok : wit.ResourceExportBase.registryOutcomeOk outcome) :
    wit.ResourceExportBase.construct outcome = none ∨
    ∃ st, wit.ResourceExportBase.construct outcome = some st ∧
      st.get_handle ≠ wit.ResourceExportBase.invalid := by
  cases outcome with
  | none => exact Or.inl rfl
  | some h =>
    refine Or.inr ⟨⟨h⟩, rfl, ?_⟩
    have hge : 0 ≤ h := hok h rfl
    simp only [wit.ResourceExportBase.get_handle,
      wit.ResourceExportBase.invalid]
    omega

/-- Witness for C7 at a registry that assigns handle 7. -/
theorem c7_construct_valid_or_fails_witness :
    wit.ResourceExportBase.construct (some 7) = none ∨
    ∃ st, wit.ResourceExportBase.construct (some 7) = some st ∧
      st.get_handle ≠ wit.ResourceExportBase.invalid :=
  c7_construct_valid_or_fails (some 7) (fun h hh => by simp at hh; omega)

/-- C8: for every imported resource, move assignment into a destination
whose handle is not the sentinel fails the assertion (modelled as
`none`, fail-fast) instead of silently overwriting; move assignment into
an empty destination transfers the handle and clears the source to the
sentinel. -/
theorem c8_move_assign_asserts_empty_dst (dst r : wit.ResourceImportBase) :
    (dst.handle ≠ wit.ResourceImportBase.invalid → dst.moveAssign r = none) ∧
    (dst.handle = wit.ResourceImportBase.invalid →
      dst.moveAssign r = some (⟨r.handle⟩, ⟨wit.ResourceImportBase.invalid⟩)) := by
  constructor <;> intro h <;> simp [wit.ResourceImportBase.moveAssign, h]

/-- Witness for C8: a live destination (handle 5) fails the assertion;
an empty destination receives handle 7 and clears the source. -/
theorem c8_move_assign_asserts_empty_dst_witness :
    (⟨5⟩ : wit.ResourceImportBase).moveAssign ⟨7⟩ = none ∧
    (⟨wit.ResourceImportBase.invalid⟩ : wit.ResourceImportBase).moveAssign ⟨7⟩ =
      some (⟨7⟩, ⟨wit.ResourceImportBase.invalid⟩) :=
  ⟨(c8_move_assign_asserts_empty_dst ⟨5⟩ ⟨7⟩).1 (by decide),
   (c8_move_assign_asserts_empty_dst ⟨wit.ResourceImportBase.invalid⟩ ⟨7⟩).2 rfl⟩

/-- C9: for every imported resource, move construction leaves the source
holding the sentinel and the destination holding the source's original
handle. -/
theorem c9_move_ctor_transfers (r : wit.ResourceImportBase) :
    r.moveCtor.1.get_handle = r.handle ∧
    r.moveCtor.2.get_handle = wit.ResourceImportBase.invalid :=
  ⟨rfl, rfl⟩

/-- C10: `set_handle(h)` unconditionally overwrites the stored handle
with `h` — even on a live (non-sentinel) state — with no assertion (it
always yields a state, never fails) and no boundary call (empty trace),
unlike move assignment, which fails on a live destination. -/
theorem c10_set_handle_unconditional (st : wit.ResourceImportBase) (h : Int)
    (src : wit.ResourceImportBase) :
    st.set_handle h = (⟨h⟩, []) ∧
    (st.handle ≠ wit.ResourceImportBase.invalid → st.moveAssign src = none) :=
  ⟨rfl, fun hne => by simp [wit.ResourceImportBase.moveAssign, hne]⟩

/-- Witness for C10 at a live state (handle 5) being overwritten with 9. -/
theorem c10_set_handle_unconditional_witness :
    (⟨5⟩ : wit.ResourceImportBase).set_handle 9 = (⟨9⟩, []) ∧
    (⟨5⟩ : wit.ResourceImportBase).moveAssign ⟨7⟩ = none :=
  ⟨(c10_set_handle_unconditional ⟨5⟩ 9 ⟨7⟩).1,
   (c10_set_handle_unconditional ⟨5⟩ 9 ⟨7⟩).2 (by decide)⟩
